import Mathlib

/-!
Shallow embedding of the labelgen repository:
  * `superpipe/llm.py` — LLM dispatch functions and response normalisation,
  * `labelkit/pipeline.py` — the `Pipeline` orchestrator and its statistics
    aggregation.

Python floats are modelled as rationals (`ℚ`); none of the verified claims
depends on floating-point rounding.  Python exceptions are modelled with
`Except String`: a value `.error msg` is a raised exception, `.ok r` a normal
return.  External effects (the provider network call, `json.loads`, client
resolution, the pricing table) are parameters of an environment record, so the
theorems quantify over every possible behaviour of the outside world.
-/

namespace Superpipe

/-- Model of a Python `dict` as returned by `json.loads`: only the shape
matters to the dispatch code (string keys and values suffice), never the
contents.  The default value of `StructuredLLMResponse.content` is the empty
dict `[]`. -/
abbrev JsonDict : Type := List (String × String)

/-- `LLMResponse` from `superpipe/llm.py` lines 9-17.  Field defaults mirror
the Python class defaults (`error` defaults to Python `None`, hence
`Option.none`). -/
structure LLMResponse where
  input_tokens : Nat := 0
  output_tokens : Nat := 0
  input_cost : ℚ := 0
  output_cost : ℚ := 0
  success : Bool := false
  error : Option String := none
  latency : ℚ := 0
  content : String := ""
  deriving DecidableEq, Repr

/-- `StructuredLLMResponse` from `superpipe/llm.py` lines 20-21: same fields
as `LLMResponse` but `content` is a parsed dict defaulting to `\x7b\x7d`. -/
structure StructuredLLMResponse where
  input_tokens : Nat := 0
  output_tokens : Nat := 0
  input_cost : ℚ := 0
  output_cost : ℚ := 0
  success : Bool := false
  error : Option String := none
  latency : ℚ := 0
  content : JsonDict := []
  deriving DecidableEq, Repr

/-- Raw reply of an Anthropic `client.messages.create` call: the fields the
dispatcher reads (`res.usage.input_tokens`, `res.usage.output_tokens`,
`res.content[0].text`). -/
structure AnthropicReply where
  usage_input_tokens : Nat
  usage_output_tokens : Nat
  content0_text : String
  deriving DecidableEq, Repr

/-- Raw reply of an OpenAI `client.chat.completions.create` call: the fields
the dispatcher reads (`res.usage.prompt_tokens`, `res.usage.completion_tokens`,
`res.choices[0].message.content`). -/
structure OpenAIReply where
  usage_prompt_tokens : Nat
  usage_completion_tokens : Nat
  choice0_message_content : String
  deriving DecidableEq, Repr

/-- Outcome of one provider network call.  `raises msg elapsed` models the
call raising an exception whose `str` is `msg` after `elapsed` seconds of
wall-clock time; `returns r elapsed` models a normal reply `r` obtained after
`elapsed` seconds.  The elapsed time of a raising call is part of the model of
the outside world only — the Python code has no `end_time` in that case. -/
inductive CallOutcome (R : Type) where
  | raises (msg : String) (elapsed : ℚ)
  | returns (reply : R) (elapsed : ℚ)
  deriving DecidableEq, Repr

/-- Environment of one dispatch invocation: every external dependency of
`superpipe/llm.py`.
  * `get_client` — `superpipe.clients.get_client` (client resolution; a
    resolved client is opaque to the dispatcher, so it is modelled as `Unit`);
  * `anthropic_call` / `openai_call` — the outcome of the single provider
    call the invocation performs;
  * `get_cost` — Modelled from the spec: the pricing table of
    `superpipe/models.py` (not under src/), a total function
    `(model, input tokens, output tokens) → (input cost, output cost)`;
  * `parse_json` — `json.loads` restricted to the strings this invocation
    parses; `none` models the parse raising. -/
structure ProviderEnv where
  get_client : String → Option Unit
  anthropic_call : CallOutcome AnthropicReply
  openai_call : CallOutcome OpenAIReply
  get_cost : String → Nat → Nat → ℚ × ℚ
  parse_json : String → Option JsonDict

/-- Modelled from the spec: model identifiers exported by
`superpipe/models.py` (not under src/).  Only their identity matters to the
routing in `get_llm_response`. -/
def claude3_haiku : String := "claude-3-haiku-20240307"

/-- Modelled from the spec: see `claude3_haiku`. -/
def claude3_sonnet : String := "claude-3-sonnet-20240229"

/-- Modelled from the spec: see `claude3_haiku`. -/
def claude3_opus : String := "claude-3-opus-20240229"

/-- Modelled from the spec: see `claude3_haiku`. -/
def gpt35 : String := "gpt-3.5-turbo"

/-- `get_llm_response_anthropic` (`superpipe/llm.py` lines 33-61).  The body
of the `try` block assigns `latency`, token counts, costs, `content` and
`success` in order; an exception from the provider call jumps to the
`except` block, which assigns only `success` and `error`. -/
def get_llm_response_anthropic (env : ProviderEnv) (prompt : String)
    (model : String := claude3_haiku) : Except String LLMResponse :=
  match env.get_client model with
  | none => .error ("Unsupported model: " ++ model)
  | some _ =>
    match env.anthropic_call with
    | .raises msg _ => .ok { success := false, error := some msg }
    | .returns res elapsed =>
      let c := env.get_cost model res.usage_input_tokens res.usage_output_tokens
      .ok { latency := elapsed
            input_tokens := res.usage_input_tokens
            output_tokens := res.usage_output_tokens
            input_cost := c.1
            output_cost := c.2
            content := res.content0_text
            success := true }

/-- `get_llm_response_openai` (`superpipe/llm.py` lines 64-91). -/
def get_llm_response_openai (env : ProviderEnv) (prompt : String)
    (model : String := gpt35) : Except String LLMResponse :=
  match env.get_client model with
  | none => .error ("Unsupported model: " ++ model)
  | some _ =>
    match env.openai_call with
    | .raises msg _ => .ok { success := false, error := some msg }
    | .returns res elapsed =>
      let c := env.get_cost model res.usage_prompt_tokens res.usage_completion_tokens
      .ok { latency := elapsed
            input_tokens := res.usage_prompt_tokens
            output_tokens := res.usage_completion_tokens
            input_cost := c.1
            output_cost := c.2
            content := res.choice0_message_content
            success := true }

/-- `get_llm_response` (`superpipe/llm.py` lines 24-30): route by model
identifier. -/
def get_llm_response (env : ProviderEnv) (prompt : String)
    (model : String := gpt35) : Except String LLMResponse :=
  if model ∈ [claude3_haiku, claude3_sonnet, claude3_opus] then
    get_llm_response_anthropic env prompt model
  else
    get_llm_response_openai env prompt model

/-- `get_structured_llm_response_anthropic` (`superpipe/llm.py` lines
103-136).  When `json.loads` raises, `res` is already bound, so the `except`
block reports a parse failure echoing the raw content; `latency`, token and
cost fields were assigned before the parse and are kept. -/
def get_structured_llm_response_anthropic (env : ProviderEnv) (prompt : String)
    (model : String := claude3_haiku) : Except String StructuredLLMResponse :=
  match env.get_client model with
  | none => .error ("Unsupported model: " ++ model)
  | some _ =>
    match env.anthropic_call with
    | .raises msg _ => .ok { success := false, error := some msg }
    | .returns res elapsed =>
      let c := env.get_cost model res.usage_input_tokens res.usage_output_tokens
      match env.parse_json res.content0_text with
      | some parsed =>
        .ok { latency := elapsed
              input_tokens := res.usage_input_tokens
              output_tokens := res.usage_output_tokens
              input_cost := c.1
              output_cost := c.2
              content := parsed
              success := true }
      | none =>
        .ok { latency := elapsed
              input_tokens := res.usage_input_tokens
              output_tokens := res.usage_output_tokens
              input_cost := c.1
              output_cost := c.2
              success := false
              error := some ("Failed to parse json: $" ++ res.content0_text) }

/-- `get_structured_llm_response_openai` (`superpipe/llm.py` lines 139-199). -/
def get_structured_llm_response_openai (env : ProviderEnv) (prompt : String)
    (model : String := gpt35) : Except String StructuredLLMResponse :=
  match env.get_client model with
  | none => .error ("Unsupported model: " ++ model)
  | some _ =>
    match env.openai_call with
    | .raises msg _ => .ok { success := false, error := some msg }
    | .returns res elapsed =>
      let c := env.get_cost model res.usage_prompt_tokens res.usage_completion_tokens
      match env.parse_json res.choice0_message_content with
      | some parsed =>
        .ok { latency := elapsed
              input_tokens := res.usage_prompt_tokens
              output_tokens := res.usage_completion_tokens
              input_cost := c.1
              output_cost := c.2
              content := parsed
              success := true }
      | none =>
        .ok { latency := elapsed
              input_tokens := res.usage_prompt_tokens
              output_tokens := res.usage_completion_tokens
              input_cost := c.1
              output_cost := c.2
              success := false
              error := some ("Failed to parse json: $" ++
                res.choice0_message_content) }

/-- `get_structured_llm_response` (`superpipe/llm.py` lines 94-100). -/
def get_structured_llm_response (env : ProviderEnv) (prompt : String)
    (model : String := gpt35) : Except String StructuredLLMResponse :=
  if model ∈ [claude3_haiku, claude3_sonnet, claude3_opus] then
    get_structured_llm_response_anthropic env prompt model
  else
    get_structured_llm_response_openai env prompt model

end Superpipe

namespace Labelkit

/-- A row (or single record) of the data, restricted to what
`_aggregate_statistics` reads from it: the lookup
`x["__<stepname>__"]["success"]`, i.e. a success flag per namespaced key. -/
abbrev Row : Type := String → Bool

/-- The data a pipeline runs over: a pandas `DataFrame` (a table of rows) or
a single `Dict` record. -/
inductive Data where
  | table (rows : List Row)
  | record (row : Row)

/-- Modelled from the spec: the per-step `statistics` snapshot of an
`LLMStep` (`labelkit/steps.py` is not under src/) — a single accumulator of
token counts, costs and latency for the most recent run (spec §4.3). -/
structure StepStatistics where
  input_tokens : Nat := 0
  output_tokens : Nat := 0
  input_cost : ℚ := 0
  output_cost : ℚ := 0
  total_latency : ℚ := 0
  deriving DecidableEq, Repr

/-- Modelled from the spec: the `Step` hierarchy of `labelkit/steps.py` (not
under src/), restricted to what `labelkit/pipeline.py` reads — every step has
a `name`; an `LLMStep` (the `isinstance(step, LLMStep)` branch) additionally
has a `model` and a `statistics` snapshot. -/
inductive Step where
  | basic (name : String)
  | llm (name : String) (model : String) (statistics : StepStatistics)

/-- `step.name`. -/
def Step.name : Step → String
  | .basic n => n
  | .llm n _ _ => n

/-- `isinstance(step, LLMStep)`. -/
def Step.isLLM : Step → Bool
  | .basic _ => false
  | .llm _ _ _ => true

/-- `PipelineStatistics` (`labelkit/pipeline.py` lines 9-17).  The
`defaultdict(int)` / `defaultdict(float)` fields are modelled as total
functions from model name defaulting to zero. -/
structure PipelineStatistics where
  input_tokens : String → Nat := fun _ => 0
  output_tokens : String → Nat := fun _ => 0
  input_cost : String → ℚ := fun _ => 0
  output_cost : String → ℚ := fun _ => 0
  num_success : Nat := 0
  num_failure : Nat := 0
  total_latency : ℚ := 0

/-- The namespaced success flag `x["__<stepname>__"]["success"]` read back
from a row. -/
def stepFlag (row : Row) (name : String) : Bool :=
  row ("__" ++ name ++ "__")

/-- `success.sum()` on a boolean series. -/
def countTrue (bs : List Bool) : Nat :=
  (bs.filter id).length

/-- The token/cost/latency folding of one `LLMStep` into the run statistics
(`labelkit/pipeline.py` lines 94-99): `defaultdict` entries keyed by the
step's model are incremented, `total_latency` accumulates. -/
def addLLMStats (stats : PipelineStatistics) (model : String)
    (s : StepStatistics) : PipelineStatistics :=
  { stats with
    input_tokens := fun m =>
      if m = model then stats.input_tokens m + s.input_tokens
      else stats.input_tokens m
    output_tokens := fun m =>
      if m = model then stats.output_tokens m + s.output_tokens
      else stats.output_tokens m
    input_cost := fun m =>
      if m = model then stats.input_cost m + s.input_cost
      else stats.input_cost m
    output_cost := fun m =>
      if m = model then stats.output_cost m + s.output_cost
      else stats.output_cost m
    total_latency := stats.total_latency + s.total_latency }

/-- One iteration of the `for step in self.steps` loop of
`_aggregate_statistics` in the `isinstance(data, pd.DataFrame)` case
(`labelkit/pipeline.py` lines 92-106).  The state is the statistics being
built together with the running `success` mask; a non-LLM step leaves both
untouched.  `success & data.apply(...)` aligns mask and rows by index, hence
`List.zipWith`; `num_failure` is `len(data) - num_success`. -/
def aggStepTable (rows : List Row) (acc : PipelineStatistics × List Bool)
    (step : Step) : PipelineStatistics × List Bool :=
  match step with
  | .basic _ => acc
  | .llm name model sstats =>
    let stats := addLLMStats acc.1 model sstats
    let mask := List.zipWith (fun b row => b && stepFlag row name) acc.2 rows
    ({ stats with
        num_success := countTrue mask
        num_failure := rows.length - countTrue mask }, mask)

/-- One iteration of the same loop in the single-record (`else`) case
(`labelkit/pipeline.py` lines 92-99 and 107-109).  Only `num_success` is
assigned; `num_failure` is never touched in this branch. -/
def aggStepRecord (row : Row) (acc : PipelineStatistics × Bool)
    (step : Step) : PipelineStatistics × Bool :=
  match step with
  | .basic _ => acc
  | .llm name model sstats =>
    let stats := addLLMStats acc.1 model sstats
    let b := acc.2 && stepFlag row name
    ({ stats with num_success := if b then 1 else 0 }, b)

/-- `_aggregate_statistics` (`labelkit/pipeline.py` lines 86-109) as a pure
function of the step list and the data: a fresh `PipelineStatistics()` and an
all-true initial mask (`data.apply(lambda x: True, axis=1)` for a table,
`True` for a record), then the loop over the steps.  The
`isinstance(data, pd.DataFrame)` test is constant across the loop, so the two
data shapes are folded separately. -/
def aggregate (steps : List Step) (data : Data) : PipelineStatistics :=
  match data with
  | .table rows => (steps.foldl (aggStepTable rows) ({}, rows.map fun _ => true)).1
  | .record row => (steps.foldl (aggStepRecord row) ({}, true)).1

/-- The `Pipeline` object state (`labelkit/pipeline.py` lines 49-56):
`data` is only ever assigned a `DataFrame` (`apply` line 62-63), `score` and
`data` start as `None`, `statistics` starts fresh. -/
structure Pipeline where
  steps : List Step
  evaluation_fn : Option (Row → Bool) := none
  data : Option (List Row) := none
  score : Option ℚ := none
  statistics : PipelineStatistics := {}

/-- The method `_aggregate_statistics` acting on the pipeline state: line 87
replaces `self.statistics` with a fresh object before anything is added, so
the result never depends on the prior statistics. -/
def Pipeline.aggregate_statistics (p : Pipeline) (data : Data) : Pipeline :=
  { p with statistics := aggregate p.steps data }

/-- A Python `dict` with keys and values the merge logic never inspects
beyond lookup: a total function to `Option`. -/
abbrev ParamDict (V : Type) : Type := String → Option V

/-- The empty dict, the default of `params.get(key, \x7b\x7d)`. -/
def emptyDict {V : Type} : ParamDict V := fun _ => none

/-- Python `\x7b**g, **s\x7d`: keys of `s` override keys of `g`. -/
def mergeDicts {V : Type} (g s : ParamDict V) : ParamDict V :=
  fun k => match s k with
    | some v => some v
    | none => g k

/-- `params.get(name, \x7b\x7d)` on the outer params dict. -/
def paramsGet {V : Type} (params : ParamDict (ParamDict V)) (name : String) :
    ParamDict V :=
  match params name with
  | some d => d
  | none => emptyDict

/-- The mapping `Pipeline.update_params` forwards to one step
(`labelkit/pipeline.py` lines 70-72):
`\x7b**params.get("global", \x7b\x7d), **params.get(step.name, \x7b\x7d)\x7d`. -/
def forwarded_params {V : Type} (params : ParamDict (ParamDict V))
    (step : Step) : ParamDict V :=
  mergeDicts (paramsGet params "global") (paramsGet params step.name)

/-- `Pipeline.update_params` (`labelkit/pipeline.py` lines 68-72), observed
at its boundary with the external `Step.update_params`: the list of
`(step.name, merged mapping)` calls it makes, in step order. -/
def update_params {V : Type} (steps : List Step)
    (params : ParamDict (ParamDict V)) : List (String × ParamDict V) :=
  steps.map fun step => (step.name, forwarded_params params step)

/-- `Pipeline.evaluate` (`labelkit/pipeline.py` lines 74-84), returning the
new pipeline state, the Python return value, and the lines printed.
`evaluation_fn or self.evaluation_fn` prefers the argument; the guard clauses
print and return `None` without touching `self.score`; otherwise the mean of
the per-row predicate is stored as `self.score` and returned. -/
def Pipeline.evaluate (p : Pipeline)
    (evaluation_fn : Option (Row → Bool) := none) :
    Pipeline × Option ℚ × List String :=
  let fn := match evaluation_fn with
    | some f => some f
    | none => p.evaluation_fn
  match fn with
  | none => (p, none, ["No evaluation function provided"])
  | some f =>
    match p.data with
    | none => (p, none, ["No data provided"])
    | some rows =>
      let results := rows.map fun row => f row
      let score : ℚ := (countTrue results : ℚ) / (results.length : ℚ)
      ({ p with score := some score }, some score, [])

end Labelkit

/-! Concrete inputs used to evaluate the definitions in closed theorems. -/

namespace Superpipe

/-- An environment whose client resolution succeeds and whose provider calls
raise an exception with message `"boom"` after 5 seconds. -/
def demoEnvRaise : ProviderEnv :=
  { get_client := fun _ => some ()
    anthropic_call := .raises "boom" 5
    openai_call := .raises "boom" 5
    get_cost := fun _ _ _ => (0, 0)
    parse_json := fun _ => none }

/-- An environment whose provider calls raise an exception whose `str` is the
empty string (e.g. Python `raise Exception()`). -/
def demoEnvEmptyMsg : ProviderEnv :=
  { get_client := fun _ => some ()
    anthropic_call := .raises "" 3
    openai_call := .raises "" 3
    get_cost := fun _ _ _ => (0, 0)
    parse_json := fun _ => none }

/-- An environment whose provider calls return a reply whose content is not
parseable JSON. -/
def demoEnvParseFail : ProviderEnv :=
  { get_client := fun _ => some ()
    anthropic_call := .returns ⟨10, 5, "not json"⟩ 2
    openai_call := .returns ⟨10, 5, "not json"⟩ 2
    get_cost := fun _ _ _ => (1, 2)
    parse_json := fun _ => none }

/-- An environment whose provider calls succeed with parseable content. -/
def demoEnvOk : ProviderEnv :=
  { get_client := fun _ => some ()
    anthropic_call := .returns ⟨10, 5, "hi"⟩ 2
    openai_call := .returns ⟨10, 5, "hi"⟩ 2
    get_cost := fun _ _ _ => (1, 2)
    parse_json := fun _ => some [("k", "v")] }

/-- An environment in which no model resolves to a client. -/
def demoEnvNoClient : ProviderEnv :=
  { get_client := fun _ => none
    anthropic_call := .raises "unreached" 0
    openai_call := .raises "unreached" 0
    get_cost := fun _ _ _ => (0, 0)
    parse_json := fun _ => none }

/-- The response `get_llm_response_openai demoEnvOk "p" "m"` produces. -/
def demoOkResp : LLMResponse :=
  { latency := 2, input_tokens := 10, output_tokens := 5, input_cost := 1,
    output_cost := 2, content := "hi", success := true }

/-- The response `get_structured_llm_response_openai demoEnvOk "p" "m"`
produces. -/
def demoOkStructResp : StructuredLLMResponse :=
  { latency := 2, input_tokens := 10, output_tokens := 5, input_cost := 1,
    output_cost := 2, content := [("k", "v")], success := true }

end Superpipe

namespace Labelkit

/-- An `LLMStep` named `"extract"`. -/
def extractStep : Step := .llm "extract" "gpt-3.5-turbo" {}

/-- A non-LLM step named `"other"`. -/
def otherStep : Step := .basic "other"

/-- Three rows on which every namespaced success flag is true. -/
def demoRows : List Row :=
  [fun _ => true, fun _ => true, fun _ => true]

/-- A record on which every namespaced success flag is false. -/
def demoFailRow : Row := fun _ => false

/-- The parameter mapping of the spec scenario: global temperature 0.2,
step-specific temperature 0.9 for step `"extract"`. -/
def demoParams : ParamDict (ParamDict ℚ) := fun n =>
  if n = "global" then some (fun k => if k = "temperature" then some (2/10) else none)
  else if n = "extract" then some (fun k => if k = "temperature" then some (9/10) else none)
  else none

/-- A pipeline with no evaluation function and no processed data. -/
def demoPipeline : Pipeline := { steps := [extractStep, otherStep] }

end Labelkit

/-! Theorems. -/

namespace Superpipe

/-- `get_llm_response_anthropic` raises exactly when the client is
unresolved. -/
theorem anthropic_error_iff (env : ProviderEnv) (prompt model : String) :
    (∃ e, get_llm_response_anthropic env prompt model = .error e) ↔
      env.get_client model = none := by
  rcases hc : env.get_client model with _ | u
  · simp [get_llm_response_anthropic, hc]
  · cases hcall : env.anthropic_call <;>
      simp [get_llm_response_anthropic, hc, hcall]

/-- `get_llm_response_openai` raises exactly when the client is
unresolved. -/
theorem openai_error_iff (env : ProviderEnv) (prompt model : String) :
    (∃ e, get_llm_response_openai env prompt model = .error e) ↔
      env.get_client model = none := by
  rcases hc : env.get_client model with _ | u
  · simp [get_llm_response_openai, hc]
  · cases hcall : env.openai_call <;>
      simp [get_llm_response_openai, hc, hcall]

/-- `get_structured_llm_response_anthropic` raises exactly when the client is
unresolved. -/
theorem structured_anthropic_error_iff (env : ProviderEnv)
    (prompt model : String) :
    (∃ e, get_structured_llm_response_anthropic env prompt model = .error e) ↔
      env.get_client model = none := by
  rcases hc : env.get_client model with _ | u
  · simp [get_structured_llm_response_anthropic, hc]
  · cases hcall : env.anthropic_call with
    | raises msg t => simp [get_structured_llm_response_anthropic, hc, hcall]
    | returns rep t =>
      cases hp : env.parse_json rep.content0_text <;>
        simp [get_structured_llm_response_anthropic, hc, hcall, hp]

/-- `get_structured_llm_response_openai` raises exactly when the client is
unresolved. -/
theorem structured_openai_error_iff (env : ProviderEnv)
    (prompt model : String) :
    (∃ e, get_structured_llm_response_openai env prompt model = .error e) ↔
      env.get_client model = none := by
  rcases hc : env.get_client model with _ | u
  · simp [get_structured_llm_response_openai, hc]
  · cases hcall : env.openai_call with
    | raises msg t => simp [get_structured_llm_response_openai, hc, hcall]
    | returns rep t =>
      cases hp : env.parse_json rep.choice0_message_content <;>
        simp [get_structured_llm_response_openai, hc, hcall, hp]

/-- C2: every dispatch function (`get_llm_response`,
`get_structured_llm_response` and the four provider variants) raises an
exception if and only if `get_client` resolves the model to no client; when
the client resolves and the provider call raises, the exception is caught and
returned as a response value with `success = false` and `error` set, never
propagated. -/
theorem dispatch_raises_iff_unresolved (env : ProviderEnv)
    (prompt model : String) :
    ((∃ e, get_llm_response_anthropic env prompt model = .error e) ↔
      env.get_client model = none)
  ∧ ((∃ e, get_llm_response_openai env prompt model = .error e) ↔
      env.get_client model = none)
  ∧ ((∃ e, get_structured_llm_response_anthropic env prompt model = .error e) ↔
      env.get_client model = none)
  ∧ ((∃ e, get_structured_llm_response_openai env prompt model = .error e) ↔
      env.get_client model = none)
  ∧ ((∃ e, get_llm_response env prompt model = .error e) ↔
      env.get_client model = none)
  ∧ ((∃ e, get_structured_llm_response env prompt model = .error e) ↔
      env.get_client model = none)
  ∧ (env.get_client model ≠ none →
      (∀ msg t, env.anthropic_call = .raises msg t →
        (∃ r, get_llm_response_anthropic env prompt model = .ok r ∧
          r.success = false ∧ r.error = some msg) ∧
        (∃ r, get_structured_llm_response_anthropic env prompt model = .ok r ∧
          r.success = false ∧ r.error = some msg)) ∧
      (∀ msg t, env.openai_call = .raises msg t →
        (∃ r, get_llm_response_openai env prompt model = .ok r ∧
          r.success = false ∧ r.error = some msg) ∧
        (∃ r, get_structured_llm_response_openai env prompt model = .ok r ∧
          r.success = false ∧ r.error = some msg))) := by
  refine ⟨anthropic_error_iff env prompt model,
    openai_error_iff env prompt model,
    structured_anthropic_error_iff env prompt model,
    structured_openai_error_iff env prompt model,
    ?_, ?_, ?_⟩
  · by_cases hm : model ∈ [claude3_haiku, claude3_sonnet, claude3_opus]
    · simpa [get_llm_response, hm] using anthropic_error_iff env prompt model
    · simpa [get_llm_response, hm] using openai_error_iff env prompt model
  · by_cases hm : model ∈ [claude3_haiku, claude3_sonnet, claude3_opus]
    · simpa [get_structured_llm_response, hm] using
        structured_anthropic_error_iff env prompt model
    · simpa [get_structured_llm_response, hm] using
        structured_openai_error_iff env prompt model
  · intro hne
    rcases hc : env.get_client model with _ | u
    · exact absurd hc hne
    refine ⟨fun msg t hcall =>
        ⟨⟨{ success := false, error := some msg }, ?_, rfl, rfl⟩,
         ⟨{ success := false, error := some msg }, ?_, rfl, rfl⟩⟩,
      fun msg t hcall =>
        ⟨⟨{ success := false, error := some msg }, ?_, rfl, rfl⟩,
         ⟨{ success := false, error := some msg }, ?_, rfl, rfl⟩⟩⟩
    · simp [get_llm_response_anthropic, hc, hcall]
    · simp [get_structured_llm_response_anthropic, hc, hcall]
    · simp [get_llm_response_openai, hc, hcall]
    · simp [get_structured_llm_response_openai, hc, hcall]

/-- Witness for C2: in a concrete environment whose provider call raises
`"boom"`, the dispatcher returns a failed response rather than raising; in a
concrete environment with no resolvable client, it raises. -/
theorem dispatch_raises_iff_unresolved_witness :
    (∃ r, get_llm_response_openai demoEnvRaise "p" "m" = .ok r ∧
      r.success = false ∧ r.error = some "boom") ∧
    (∃ e, get_llm_response_openai demoEnvNoClient "p" "m" = .error e) :=
  ⟨(((dispatch_raises_iff_unresolved demoEnvRaise "p" "m").2.2.2.2.2.2
      (by simp [demoEnvRaise])).2 "boom" 5 rfl).1,
   ((dispatch_raises_iff_unresolved demoEnvNoClient "p" "m").2.1).mpr rfl⟩

/-- Counterexample to C3: in `demoEnvRaise` the provider call raises after 5
seconds of elapsed wall-clock time, yet the response returned by
`get_llm_response_openai` keeps `latency` at the default 0.0 — the `except`
block of `superpipe/llm.py` assigns only `success` and `error`, and
`end_time`/`response.latency` are never reached on a raising call. -/
theorem latency_on_raise_counterexample :
    demoEnvRaise.openai_call = .raises "boom" 5 ∧
    get_llm_response_openai demoEnvRaise "p" "m" =
      .ok { success := false, error := some "boom" } ∧
    ({ success := false, error := some "boom" : LLMResponse }).latency = 0 ∧
    (0 : ℚ) ≠ 5 :=
  ⟨rfl, rfl, rfl, by norm_num⟩

/-- C3 amended: when the provider call itself raises, the returned response
has `success = false` and `latency` left at the default 0; only a structured
parse failure — which happens after the provider call returned and `latency`
was already assigned — records the elapsed time up to the failure point. -/
theorem latency_on_failure (env : ProviderEnv) (prompt model : String)
    (h : env.get_client model ≠ none) :
    (∀ msg t, env.anthropic_call = .raises msg t →
      (∃ r, get_llm_response_anthropic env prompt model = .ok r ∧
        r.success = false ∧ r.latency = 0) ∧
      (∃ r, get_structured_llm_response_anthropic env prompt model = .ok r ∧
        r.success = false ∧ r.latency = 0))
  ∧ (∀ msg t, env.openai_call = .raises msg t →
      (∃ r, get_llm_response_openai env prompt model = .ok r ∧
        r.success = false ∧ r.latency = 0) ∧
      (∃ r, get_structured_llm_response_openai env prompt model = .ok r ∧
        r.success = false ∧ r.latency = 0))
  ∧ (∀ rep t, env.anthropic_call = .returns rep t →
      env.parse_json rep.content0_text = none →
      ∃ r, get_structured_llm_response_anthropic env prompt model = .ok r ∧
        r.success = false ∧ r.latency = t)
  ∧ (∀ rep t, env.openai_call = .returns rep t →
      env.parse_json rep.choice0_message_content = none →
      ∃ r, get_structured_llm_response_openai env prompt model = .ok r ∧
        r.success = false ∧ r.latency = t) := by
  rcases hc : env.get_client model with _ | u
  · exact absurd hc h
  refine ⟨fun msg t hcall =>
      ⟨⟨{ success := false, error := some msg }, ?_, rfl, rfl⟩,
       ⟨{ success := false, error := some msg }, ?_, rfl, rfl⟩⟩,
    fun msg t hcall =>
      ⟨⟨{ success := false, error := some msg }, ?_, rfl, rfl⟩,
       ⟨{ success := false, error := some msg }, ?_, rfl, rfl⟩⟩,
    fun rep t hcall hp =>
      ⟨{ latency := t
         input_tokens := rep.usage_input_tokens
         output_tokens := rep.usage_output_tokens
         input_cost := (env.get_cost model rep.usage_input_tokens
           rep.usage_output_tokens).1
         output_cost := (env.get_cost model rep.usage_input_tokens
           rep.usage_output_tokens).2
         success := false
         error := some ("Failed to parse json: $" ++ rep.content0_text) },
       ?_, rfl, rfl⟩,
    fun rep t hcall hp =>
      ⟨{ latency := t
         input_tokens := rep.usage_prompt_tokens
         output_tokens := rep.usage_completion_tokens
         input_cost := (env.get_cost model rep.usage_prompt_tokens
           rep.usage_completion_tokens).1
         output_cost := (env.get_cost model rep.usage_prompt_tokens
           rep.usage_completion_tokens).2
         success := false
         error := some ("Failed to parse json: $" ++
           rep.choice0_message_content) },
       ?_, rfl, rfl⟩⟩
  · simp [get_llm_response_anthropic, hc, hcall]
  · simp [get_structured_llm_response_anthropic, hc, hcall]
  · simp [get_llm_response_openai, hc, hcall]
  · simp [get_structured_llm_response_openai, hc, hcall]
  · simp [get_structured_llm_response_anthropic, hc, hcall, hp]
  · simp [get_structured_llm_response_openai, hc, hcall, hp]

/-- Witness for the amended C3: a raising call leaves latency 0; a parse
failure after a 2-second call records latency 2. -/
theorem latency_on_failure_witness :
    (∃ r, get_llm_response_openai demoEnvRaise "p" "m" = .ok r ∧
      r.success = false ∧ r.latency = 0) ∧
    (∃ r, get_structured_llm_response_openai demoEnvParseFail "p" "m" = .ok r ∧
      r.success = false ∧ r.latency = 2) :=
  ⟨(((latency_on_failure demoEnvRaise "p" "m" (by simp [demoEnvRaise])).2.1
      "boom" 5 rfl)).1,
   (latency_on_failure demoEnvParseFail "p" "m"
      (by simp [demoEnvParseFail])).2.2.2 ⟨10, 5, "not json"⟩ 2 rfl rfl⟩

/-- C4: when the client resolves and the provider reply's content cannot be
parsed as JSON, both structured dispatch functions return (do not raise) a
`StructuredLLMResponse` with `success = false`, `error` equal to
`"Failed to parse json: $"` followed by the offending raw content text, and
`content` left at the empty default. -/
theorem structured_parse_failure (env : ProviderEnv) (prompt model : String)
    (h : env.get_client model ≠ none) :
    (∀ rep t, env.openai_call = .returns rep t →
      env.parse_json rep.choice0_message_content = none →
      ∃ r, get_structured_llm_response_openai env prompt model = .ok r ∧
        r.success = false ∧
        r.error = some ("Failed to parse json: $" ++
          rep.choice0_message_content) ∧
        r.content = []) ∧
    (∀ rep t, env.anthropic_call = .returns rep t →
      env.parse_json rep.content0_text = none →
      ∃ r, get_structured_llm_response_anthropic env prompt model = .ok r ∧
        r.success = false ∧
        r.error = some ("Failed to parse json: $" ++ rep.content0_text) ∧
        r.content = []) := by
  rcases hc : env.get_client model with _ | u
  · exact absurd hc h
  refine ⟨fun rep t hcall hp =>
      ⟨{ latency := t
         input_tokens := rep.usage_prompt_tokens
         output_tokens := rep.usage_completion_tokens
         input_cost := (env.get_cost model rep.usage_prompt_tokens
           rep.usage_completion_tokens).1
         output_cost := (env.get_cost model rep.usage_prompt_tokens
           rep.usage_completion_tokens).2
         success := false
         error := some ("Failed to parse json: $" ++
           rep.choice0_message_content) },
       ?_, rfl, rfl, rfl⟩,
    fun rep t hcall hp =>
      ⟨{ latency := t
         input_tokens := rep.usage_input_tokens
         output_tokens := rep.usage_output_tokens
         input_cost := (env.get_cost model rep.usage_input_tokens
           rep.usage_output_tokens).1
         output_cost := (env.get_cost model rep.usage_input_tokens
           rep.usage_output_tokens).2
         success := false
         error := some ("Failed to parse json: $" ++ rep.content0_text) },
       ?_, rfl, rfl, rfl⟩⟩
  · simp [get_structured_llm_response_openai, hc, hcall, hp]
  · simp [get_structured_llm_response_anthropic, hc, hcall, hp]

/-- Witness for C4: in `demoEnvParseFail` the reply content `"not json"` does
not parse; the structured dispatcher returns a failed response whose error
echoes the raw content and whose content is the empty default. -/
theorem structured_parse_failure_witness :
    ∃ r, get_structured_llm_response_openai demoEnvParseFail "p" "m" = .ok r ∧
      r.success = false ∧
      r.error = some ("Failed to parse json: $" ++ "not json") ∧
      r.content = [] :=
  (structured_parse_failure demoEnvParseFail "p" "m"
    (by simp [demoEnvParseFail])).1 ⟨10, 5, "not json"⟩ 2 rfl rfl

/-- Counterexample to C5: a caught provider exception whose Python `str` is
the empty string (as for `raise Exception()`) yields a returned response with
`success = false` whose `error` is the empty string — set, but not a
non-empty string as the claim requires. -/
theorem response_invariant_counterexample :
    get_llm_response_openai demoEnvEmptyMsg "p" "m" =
      .ok { success := false, error := some "" } ∧
    ("" : String).length = 0 :=
  ⟨rfl, rfl⟩

/-- C5 amended: every response returned (not raised) by a dispatch function
satisfies: `success = true` implies `error = none`, and `success = false`
implies `content` is its empty default and `error` is set (not `none`) —
though the error string itself may be empty when the caught exception's
message is empty. -/
theorem response_invariant (env : ProviderEnv) (prompt model : String)
    (r : LLMResponse) (rs : StructuredLLMResponse) :
    ((get_llm_response_anthropic env prompt model = .ok r ∨
      get_llm_response_openai env prompt model = .ok r ∨
      get_llm_response env prompt model = .ok r) →
      (r.success = true → r.error = none) ∧
      (r.success = false → r.content = "" ∧ r.error ≠ none)) ∧
    ((get_structured_llm_response_anthropic env prompt model = .ok rs ∨
      get_structured_llm_response_openai env prompt model = .ok rs ∨
      get_structured_llm_response env prompt model = .ok rs) →
      (rs.success = true → rs.error = none) ∧
      (rs.success = false → rs.content = [] ∧ rs.error ≠ none)) := by
  have hu : ∀ x : LLMResponse,
      get_llm_response_anthropic env prompt model = .ok x ∨
      get_llm_response_openai env prompt model = .ok x →
      (x.success = true → x.error = none) ∧
      (x.success = false → x.content = "" ∧ x.error ≠ none) := by
    intro x hx
    rcases hc : env.get_client model with _ | u
    · rcases hx with hx | hx <;>
        simp [get_llm_response_anthropic, get_llm_response_openai, hc] at hx
    · rcases hx with hx | hx
      · cases hcall : env.anthropic_call <;>
          simp [get_llm_response_anthropic, hc, hcall] at hx <;>
          subst hx <;> simp
      · cases hcall : env.openai_call <;>
          simp [get_llm_response_openai, hc, hcall] at hx <;>
          subst hx <;> simp
  have hs : ∀ x : StructuredLLMResponse,
      get_structured_llm_response_anthropic env prompt model = .ok x ∨
      get_structured_llm_response_openai env prompt model = .ok x →
      (x.success = true → x.error = none) ∧
      (x.success = false → x.content = [] ∧ x.error ≠ none) := by
    intro x hx
    rcases hc : env.get_client model with _ | u
    · rcases hx with hx | hx <;>
        simp [get_structured_llm_response_anthropic,
          get_structured_llm_response_openai, hc] at hx
    · rcases hx with hx | hx
      · cases hcall : env.anthropic_call with
        | raises msg t =>
          simp [get_structured_llm_response_anthropic, hc, hcall] at hx
          subst hx; simp
        | returns rep t =>
          cases hp : env.parse_json rep.content0_text <;>
            simp [get_structured_llm_response_anthropic, hc, hcall, hp] at hx <;>
            subst hx <;> simp
      · cases hcall : env.openai_call with
        | raises msg t =>
          simp [get_structured_llm_response_openai, hc, hcall] at hx
          subst hx; simp
        | returns rep t =>
          cases hp : env.parse_json rep.choice0_message_content <;>
            simp [get_structured_llm_response_openai, hc, hcall, hp] at hx <;>
            subst hx <;> simp
  refine ⟨fun hr => ?_, fun hrs => ?_⟩
  · rcases hr with hr | hr | hr
    · exact hu r (Or.inl hr)
    · exact hu r (Or.inr hr)
    · by_cases hm : model ∈ [claude3_haiku, claude3_sonnet, claude3_opus] <;>
        simp [get_llm_response, hm] at hr
      · exact hu r (Or.inl hr)
      · exact hu r (Or.inr hr)
  · rcases hrs with hrs | hrs | hrs
    · exact hs rs (Or.inl hrs)
    · exact hs rs (Or.inr hrs)
    · by_cases hm : model ∈ [claude3_haiku, claude3_sonnet, claude3_opus] <;>
        simp [get_structured_llm_response, hm] at hrs
      · exact hs rs (Or.inl hrs)
      · exact hs rs (Or.inr hrs)

/-- Witness for the amended C5: the successful responses returned in
`demoEnvOk` have `error = none`. -/
theorem response_invariant_witness :
    demoOkResp.error = none ∧ demoOkStructResp.error = none :=
  ⟨((response_invariant demoEnvOk "p" "m" demoOkResp demoOkStructResp).1
      (Or.inr (Or.inl rfl))).1 rfl,
   ((response_invariant demoEnvOk "p" "m" demoOkResp demoOkStructResp).2
      (Or.inr (Or.inl rfl))).1 rfl⟩

end Superpipe

namespace Labelkit

/-- The spec-side predicate "every LLM-producing step in `steps` succeeded on
this row": the conjunction of the namespaced success flags of the LLM
steps. -/
def llmSuccessRow (steps : List Step) (row : Row) : Bool :=
  (steps.filter Step.isLLM).all fun s => stepFlag row s.name

theorem zipWith_left (bs : List Bool) :
    ∀ rows : List Row, bs.length = rows.length →
    List.zipWith (fun b _ => b) bs rows = bs := by
  induction bs with
  | nil => intro rows h; simp
  | cons b bt ih =>
    intro rows h
    cases rows with
    | nil => simp at h
    | cons r rt =>
      simp only [List.zipWith_cons_cons, List.cons.injEq, true_and]
      exact ih rt (by simpa using h)

theorem zipWith_zipWith (f g : Bool → Row → Bool) (bs : List Bool) :
    ∀ rows : List Row,
    List.zipWith f (List.zipWith g bs rows) rows =
      List.zipWith (fun b r => f (g b r) r) bs rows := by
  induction bs with
  | nil => intro rows; simp
  | cons b bt ih =>
    intro rows
    cases rows with
    | nil => simp
    | cons r rt => simp [ih rt]

/-- The running success mask after folding a list of steps over a table: the
pointwise AND of the initial mask with the flags of every LLM step. -/
theorem foldl_table_mask (rows : List Row) :
    ∀ (steps : List Step) (stats : PipelineStatistics) (bs : List Bool),
    bs.length = rows.length →
    (steps.foldl (aggStepTable rows) (stats, bs)).2 =
      List.zipWith (fun b r => b && llmSuccessRow steps r) bs rows := by
  intro steps
  induction steps with
  | nil =>
    intro stats bs h
    simp only [List.foldl_nil, llmSuccessRow, List.filter_nil, List.all_nil,
      Bool.and_true]
    exact (zipWith_left bs rows h).symm
  | cons s st ih =>
    intro stats bs h
    cases s with
    | basic n =>
      exact ih stats bs h
    | llm name mdl ss =>
      simp only [List.foldl_cons, aggStepTable]
      rw [ih _ _ (by simp [h]), zipWith_zipWith]
      congr 1
      funext b r
      simp [llmSuccessRow, List.filter_cons, Step.isLLM, Step.name,
        Bool.and_assoc]

/-- Folding only non-LLM steps leaves the accumulator untouched. -/
theorem foldl_table_id (rows : List Row) :
    ∀ steps : List Step, (∀ s ∈ steps, Step.isLLM s = false) →
    ∀ acc, steps.foldl (aggStepTable rows) acc = acc := by
  intro steps
  induction steps with
  | nil => intro _ acc; rfl
  | cons s st ih =>
    intro h acc
    cases s with
    | basic n =>
      simpa [aggStepTable] using
        ih (fun t ht => h t (List.mem_cons_of_mem _ ht)) acc
    | llm name mdl ss =>
      exact absurd (h _ (List.mem_cons_self _ _)) (by simp [Step.isLLM])

/-- As soon as the step list contains an LLM step, the folded statistics
count successes as the true entries of the final mask and failures as the
complement against the row count. -/
theorem foldl_table_counts (rows : List Row) :
    ∀ (steps : List Step) (stats : PipelineStatistics) (bs : List Bool),
    (∃ s ∈ steps, Step.isLLM s = true) →
    (steps.foldl (aggStepTable rows) (stats, bs)).1.num_success =
      countTrue (steps.foldl (aggStepTable rows) (stats, bs)).2 ∧
    (steps.foldl (aggStepTable rows) (stats, bs)).1.num_failure =
      rows.length -
        countTrue (steps.foldl (aggStepTable rows) (stats, bs)).2 := by
  intro steps
  induction steps with
  | nil => intro stats bs h; simp at h
  | cons s st ih =>
    intro stats bs h
    cases s with
    | basic n =>
      have hst : ∃ t ∈ st, Step.isLLM t = true := by
        rcases h with ⟨t, ht, hl⟩
        rcases List.mem_cons.mp ht with rfl | ht2
        · simp [Step.isLLM] at hl
        · exact ⟨t, ht2, hl⟩
      simpa [aggStepTable] using ih stats bs hst
    | llm name mdl ss =>
      by_cases hst : ∃ t ∈ st, Step.isLLM t = true
      · simp only [List.foldl_cons, aggStepTable]
        exact ih _ _ hst
      · have hnone : ∀ t ∈ st, Step.isLLM t = false := by
          intro t ht
          rcases Bool.eq_false_or_eq_true (Step.isLLM t) with htr | hf
          · exact absurd ⟨t, ht, htr⟩ hst
          · exact hf
        simp only [List.foldl_cons, aggStepTable]
        rw [foldl_table_id rows st hnone]
        exact ⟨rfl, rfl⟩

theorem countTrue_map (P : Row → Bool) :
    ∀ rows : List Row, countTrue (rows.map P) = (rows.filter P).length := by
  intro rows
  induction rows with
  | nil => rfl
  | cons r rt ih =>
    cases h : P r <;>
      simp [countTrue, List.filter_cons, h] at ih ⊢ <;> exact ih

theorem zipWith_mask_init (F : Row → Bool) :
    ∀ rows : List Row,
    List.zipWith (fun b r => b && F r) (rows.map fun _ => true) rows =
      rows.map F := by
  intro rows
  induction rows with
  | nil => rfl
  | cons r rt ih =>
    simp only [List.map_cons, List.zipWith_cons_cons, Bool.true_and, ih]

/-- C1: for a table of N rows, after a run, `_aggregate_statistics` sets
`num_success` to the number of rows whose namespaced success flag
`__<stepname>__.success` is true for every LLM-producing step of the
pipeline, and `num_failure` to N minus `num_success` (stated for pipelines
containing at least one LLM step, the case in which the fold assigns the
counters; the single-LLM-step all-success instance `num_success = N`,
`num_failure = 0` is the witness). -/
theorem aggregate_table_success_counts (steps : List Step) (rows : List Row)
    (h : ∃ s ∈ steps, Step.isLLM s = true) :
    (aggregate steps (.table rows)).num_success =
      (rows.filter fun r => llmSuccessRow steps r).length ∧
    (aggregate steps (.table rows)).num_failure =
      rows.length - (rows.filter fun r => llmSuccessRow steps r).length := by
  have hcnt := foldl_table_counts rows steps {} (rows.map fun _ => true) h
  rw [foldl_table_mask rows steps {} (rows.map fun _ => true) (by simp),
    zipWith_mask_init (fun r => llmSuccessRow steps r) rows,
    countTrue_map] at hcnt
  simpa [aggregate] using hcnt

/-- Witness for C1: one LLM step, three rows, every call succeeded —
`num_success = 3 = N` and `num_failure = 0`. -/
theorem aggregate_table_success_counts_witness :
    (aggregate [extractStep] (.table demoRows)).num_success = 3 ∧
    (aggregate [extractStep] (.table demoRows)).num_failure = 0 := by
  have h := aggregate_table_success_counts [extractStep] demoRows
    ⟨extractStep, List.mem_singleton_self _, rfl⟩
  exact ⟨h.1.trans (by rfl), h.2.trans (by rfl)⟩

/-- The running success flag after folding a list of steps over a single
record: the AND of the initial flag with the flags of every LLM step. -/
theorem foldl_record_mask (row : Row) :
    ∀ (steps : List Step) (stats : PipelineStatistics) (b : Bool),
    (steps.foldl (aggStepRecord row) (stats, b)).2 =
      (b && llmSuccessRow steps row) := by
  intro steps
  induction steps with
  | nil =>
    intro stats b
    simp [llmSuccessRow]
  | cons s st ih =>
    intro stats b
    cases s with
    | basic n => exact ih _ b
    | llm name mdl ss =>
      simp only [List.foldl_cons, aggStepRecord]
      rw [ih]
      simp [llmSuccessRow, List.filter_cons, Step.isLLM, Step.name,
        Bool.and_assoc]

/-- In the single-record branch, `num_failure` is never assigned: it keeps
the value it had in the initial accumulator, whatever the steps. -/
theorem foldl_record_num_failure (row : Row) :
    ∀ (steps : List Step) (stats : PipelineStatistics) (b : Bool),
    (steps.foldl (aggStepRecord row) (stats, b)).1.num_failure =
      stats.num_failure := by
  intro steps
  induction steps with
  | nil => intro stats b; rfl
  | cons s st ih =>
    intro stats b
    cases s with
    | basic n => exact ih _ b
    | llm name mdl ss => exact ih _ _

/-- Folding only non-LLM steps over a record leaves the accumulator
untouched. -/
theorem foldl_record_id (row : Row) :
    ∀ steps : List Step, (∀ s ∈ steps, Step.isLLM s = false) →
    ∀ acc, steps.foldl (aggStepRecord row) acc = acc := by
  intro steps
  induction steps with
  | nil => intro _ acc; rfl
  | cons s st ih =>
    intro h acc
    cases s with
    | basic n =>
      simpa [aggStepRecord] using
        ih (fun t ht => h t (List.mem_cons_of_mem _ ht)) acc
    | llm name mdl ss =>
      exact absurd (h _ (List.mem_cons_self _ _)) (by simp [Step.isLLM])

/-- As soon as the step list contains an LLM step, the folded record
statistics set `num_success` from the final ANDed flag. -/
theorem foldl_record_num_success (row : Row) :
    ∀ (steps : List Step) (stats : PipelineStatistics) (b : Bool),
    (∃ s ∈ steps, Step.isLLM s = true) →
    (steps.foldl (aggStepRecord row) (stats, b)).1.num_success =
      (if (steps.foldl (aggStepRecord row) (stats, b)).2 then 1 else 0) := by
  intro steps
  induction steps with
  | nil => intro stats b h; simp at h
  | cons s st ih =>
    intro stats b h
    cases s with
    | basic n =>
      have hst : ∃ t ∈ st, Step.isLLM t = true := by
        rcases h with ⟨t, ht, hl⟩
        rcases List.mem_cons.mp ht with rfl | ht2
        · simp [Step.isLLM] at hl
        · exact ⟨t, ht2, hl⟩
      exact ih _ b hst
    | llm name mdl ss =>
      by_cases hst : ∃ t ∈ st, Step.isLLM t = true
      · exact ih _ _ hst
      · have hnone : ∀ t ∈ st, Step.isLLM t = false := by
          intro t ht
          rcases Bool.eq_false_or_eq_true (Step.isLLM t) with htr | hf
          · exact absurd ⟨t, ht, htr⟩ hst
          · exact hf
        simp only [List.foldl_cons, aggStepRecord]
        simp only [foldl_record_id row st hnone]

/-- C9: for a single-record input, `_aggregate_statistics` sets `num_success`
to 1 when the ANDed success flags of all LLM-producing steps are true and to
0 otherwise, and never assigns `num_failure` in that branch, so `num_failure`
stays 0 even when the record failed (stated for pipelines containing at
least one LLM step, the case in which `num_success` is assigned). -/
theorem aggregate_record_success (steps : List Step) (row : Row)
    (h : ∃ s ∈ steps, Step.isLLM s = true) :
    (aggregate steps (.record row)).num_success =
      (if llmSuccessRow steps row then 1 else 0) ∧
    (aggregate steps (.record row)).num_failure = 0 := by
  have h1 := foldl_record_num_success row steps {} true h
  rw [foldl_record_mask row steps {} true, Bool.true_and] at h1
  have h2 := foldl_record_num_failure row steps {} true
  exact ⟨by simpa [aggregate] using h1, by simpa [aggregate] using h2⟩

/-- Witness for C9: a failed record under one LLM step gives
`num_success = 0` and `num_failure = 0` — not `1 - num_success`. -/
theorem aggregate_record_success_witness :
    (aggregate [extractStep] (.record demoFailRow)).num_success = 0 ∧
    (aggregate [extractStep] (.record demoFailRow)).num_failure = 0 := by
  have h := aggregate_record_success [extractStep] demoFailRow
    ⟨extractStep, List.mem_singleton_self _, rfl⟩
  exact ⟨h.1.trans (by rfl), h.2⟩

/-- C10: a pipeline with no LLM-producing step leaves every aggregated
statistic at its fresh default on any table — `num_success = 0`,
`num_failure = 0`, empty token and cost maps, zero latency — because the
counters are only assigned inside the per-LLM-step fold. -/
theorem aggregate_no_llm (steps : List Step) (rows : List Row)
    (h : ∀ s ∈ steps, Step.isLLM s = false) :
    (aggregate steps (.table rows)).num_success = 0 ∧
    (aggregate steps (.table rows)).num_failure = 0 ∧
    (∀ m, (aggregate steps (.table rows)).input_tokens m = 0 ∧
      (aggregate steps (.table rows)).output_tokens m = 0 ∧
      (aggregate steps (.table rows)).input_cost m = 0 ∧
      (aggregate steps (.table rows)).output_cost m = 0) ∧
    (aggregate steps (.table rows)).total_latency = 0 := by
  have hagg : aggregate steps (.table rows) = ({} : PipelineStatistics) := by
    simp [aggregate, foldl_table_id rows steps h]
  rw [hagg]
  exact ⟨rfl, rfl, fun m => ⟨rfl, rfl, rfl, rfl⟩, rfl⟩

/-- Witness for C10: one non-LLM step over three successfully processed rows
still reports zero successes, zero failures, empty maps and zero latency. -/
theorem aggregate_no_llm_witness :
    (aggregate [otherStep] (.table demoRows)).num_success = 0 ∧
    (aggregate [otherStep] (.table demoRows)).num_failure = 0 ∧
    (aggregate [otherStep] (.table demoRows)).input_tokens "gpt-3.5-turbo" = 0 ∧
    (aggregate [otherStep] (.table demoRows)).total_latency = 0 := by
  have h := aggregate_no_llm [otherStep] demoRows
    (by intro s hs; rcases List.mem_singleton.mp hs with rfl; rfl)
  exact ⟨h.1, h.2.1, (h.2.2.1 "gpt-3.5-turbo").1, h.2.2.2⟩

/-- C6: `_aggregate_statistics` always builds a fresh `PipelineStatistics` —
the result never depends on the prior statistics object — and it is
idempotent: aggregating twice over the same steps and finished data yields
the identical pipeline state. -/
theorem aggregate_statistics_fresh_and_idempotent (p : Pipeline) (data : Data)
    (s1 s2 : PipelineStatistics) :
    ({ p with statistics := s1 }.aggregate_statistics data).statistics =
      ({ p with statistics := s2 }.aggregate_statistics data).statistics ∧
    (p.aggregate_statistics data).aggregate_statistics data =
      p.aggregate_statistics data :=
  ⟨rfl, rfl⟩

/-- C7: `Pipeline.update_params` forwards to each step the merge of
`params["global"]` with `params[step.name]` in which step-specific keys take
precedence: a key present in the step-specific mapping reaches the step with
the step-specific value, a key absent from it reaches the step with the
global value. -/
theorem update_params_merges {V : Type} (steps : List Step)
    (params : ParamDict (ParamDict V)) (step : Step) (h : step ∈ steps)
    (k : String) :
    (step.name, forwarded_params params step) ∈ update_params steps params ∧
    (∀ sv, paramsGet params step.name k = some sv →
      forwarded_params params step k = some sv) ∧
    (paramsGet params step.name k = none →
      forwarded_params params step k = paramsGet params "global" k) := by
  refine ⟨List.mem_map_of_mem _ h, fun sv hsv => ?_, fun hnone => ?_⟩
  · simp [forwarded_params, mergeDicts, hsv]
  · simp [forwarded_params, mergeDicts, hnone]

/-- Witness for C7: with global temperature 0.2 and step override 0.9 for
`"extract"`, the step `"extract"` receives 0.9 and the step `"other"`
receives 0.2. -/
theorem update_params_merges_witness :
    forwarded_params demoParams extractStep "temperature" = some (9/10) ∧
    forwarded_params demoParams otherStep "temperature" = some (2/10) ∧
    ("extract", forwarded_params demoParams extractStep) ∈
      update_params [extractStep, otherStep] demoParams := by
  have he := update_params_merges [extractStep, otherStep] demoParams
    extractStep (List.mem_cons_self _ _) "temperature"
  have ho := update_params_merges [extractStep, otherStep] demoParams
    otherStep (List.mem_cons_of_mem _ (List.mem_cons_self _ _)) "temperature"
  refine ⟨he.2.1 (9/10) (by simp [paramsGet, demoParams, extractStep,
      Step.name]),
    (ho.2.2 (by simp [paramsGet, demoParams, otherStep, Step.name,
      emptyDict])).trans
      (by simp [paramsGet, demoParams]),
    he.1⟩

/-- C8: `Pipeline.evaluate` with no evaluation function available (none
supplied and none configured) or with no processed table data is a no-op: it
reports the condition, returns `None` without raising, and leaves the
pipeline — in particular its prior `score` — untouched. -/
theorem evaluate_noop (p : Pipeline) (fn : Option (Row → Bool))
    (h : (fn = none ∧ p.evaluation_fn = none) ∨ p.data = none) :
    (p.evaluate fn).1 = p ∧ (p.evaluate fn).2.1 = none ∧
    (p.evaluate fn).2.2 ≠ [] := by
  rcases h with ⟨hfn, hp⟩ | hdata
  · subst hfn
    simp [Pipeline.evaluate, hp]
  · cases fn with
    | none =>
      cases hpf : p.evaluation_fn with
      | none => simp [Pipeline.evaluate, hpf]
      | some f => simp [Pipeline.evaluate, hpf, hdata]
    | some f => simp [Pipeline.evaluate, hdata]

/-- Witness for C8: a pipeline with no evaluation function and no data —
`evaluate` returns `None`, reports, and `score` is still `None`. -/
theorem evaluate_noop_witness :
    (demoPipeline.evaluate none).1 = demoPipeline ∧
    (demoPipeline.evaluate none).2.1 = none ∧
    (demoPipeline.evaluate none).2.2 ≠ [] ∧
    (demoPipeline.evaluate none).1.score = none := by
  have h := evaluate_noop demoPipeline none (Or.inl ⟨rfl, rfl⟩)
  exact ⟨h.1, h.2.1, h.2.2, by rw [h.1]; rfl⟩

end Labelkit
